import Mathlib

/-!
# Verification of the emergence-backend service

A shallow embedding of `src/main.py` (a FastAPI portfolio backend: resume
store, chat-history store, resume-context templating and a chat proxy to an
external chat-completion API), together with theorems checking the service's
natural-language specification against this embedding.

The two MongoDB collections are modelled as Lean lists; the collection
operations used by the service (`find_one`, `insert_one`, `count_documents`,
`replace_one(upsert=True)`, `find().sort().limit()`) are modelled after their
documented single-collection semantics.  The outbound HTTP call and the
wall clock are inputs of the embedded handler: the upstream response, the
generated timestamps and the success of the history insert are explicit
parameters, so every observable branch of the handler is a total function of
its inputs.
-/

namespace EmergenceBackend

/-- Python interpolates the value `None` into an f-string as the text
`"None"`; this helper renders an optional string field the way
`f"{d.get('key')}"` does. -/
def fstrOpt (o : Option String) : String := o.getD "None"

/-- The `personal_info` sub-document of a resume.  Every field is optional:
the handlers read them with `dict.get`, which yields `None` when absent. -/
structure PersonalInfo where
  name : Option String
  title : Option String
  email : Option String
  mobile : Option String
  location : Option String
deriving DecidableEq

/-- One entry of the `education` list of a resume. -/
structure EducationEntry where
  degree : Option String
  status : Option String
  institution : Option String
deriving DecidableEq

/-- One entry of the `projects` list of a resume. -/
structure ProjectEntry where
  name : Option String
  description : Option String
  technologies : List String
deriving DecidableEq

/-- A resume document as `src/main.py` reads it: `skills` is a Python dict
(category name to skill list), modelled as an association list in insertion
order, since `skills.items()` iterates in insertion order. -/
structure ResumeDocument where
  personal_info : PersonalInfo
  education : List EducationEntry
  skills : List (String × List String)
  projects : List ProjectEntry
  about : String
deriving DecidableEq

/-- The `for edu in education` loop of `get_resume_context`: each iteration
appends `f"- {edu.get('degree')} - {edu.get('status')}\n"`. -/
def renderEducationLines : List EducationEntry → String
  | [] => ""
  | e :: rest =>
    ("- " ++ fstrOpt e.degree ++ " - " ++ fstrOpt e.status ++ "\n") ++
      renderEducationLines rest

/-- The `for category, skill_list in skills.items()` loop: each iteration
appends `f"- {category}: {', '.join(skill_list)}\n"`. -/
def renderSkillLines : List (String × List String) → String
  | [] => ""
  | c :: rest =>
    ("- " ++ c.1 ++ ": " ++ String.intercalate ", " c.2 ++ "\n") ++
      renderSkillLines rest

/-- The `for proj in projects` loop: each iteration appends
`f"- {proj.get('name')}: {proj.get('description')}\n"`. -/
def renderProjectLines : List ProjectEntry → String
  | [] => ""
  | p :: rest =>
    ("- " ++ fstrOpt p.name ++ ": " ++ fstrOpt p.description ++ "\n") ++
      renderProjectLines rest

/-- `get_resume_context` of `src/main.py`.  The argument is the result of
`resume_collection.find_one()`; `none` is Python's `None` (empty collection).
The string literals are verbatim from the source's f-strings; note that the
triple-quoted f-string opens with a newline and that `personal.get('name')`
in the header defaults to `'the candidate'` while the `Name:` field defaults
to `None` (rendered `"None"`). -/
def get_resume_context (resume : Option ResumeDocument) : String :=
  match resume with
  | none => "No resume data available."
  | some r =>
    "\nYou are an AI assistant for " ++ r.personal_info.name.getD "the candidate" ++
      "'s portfolio website. Answer questions about their background, skills, and experience professionally and concisely.\n\nName: " ++
      fstrOpt r.personal_info.name ++
      "\nTitle: " ++ fstrOpt r.personal_info.title ++
      "\nEmail: " ++ fstrOpt r.personal_info.email ++
      "\nMobile: " ++ fstrOpt r.personal_info.mobile ++
      "\nLocation: " ++ r.personal_info.location.getD "Not specified" ++
      "\n\nEducation:\n" ++
      renderEducationLines r.education ++
      "\nSkills:\n" ++
      renderSkillLines r.skills ++
      "\nProjects:\n" ++
      renderProjectLines r.projects ++
      "\nAbout:\n" ++ r.about ++ "\n" ++
      "\nAnswer questions naturally and professionally. If asked about something not mentioned here, politely indicate that information is not available."

/-- The seed resume inserted by `initialize_resume` on first startup
(`resume_data` in `src/main.py`, lines 32-73). -/
def initial_resume_data : ResumeDocument where
  personal_info :=
    { name := some "Aditya Avinash Mane"
      title := some "Full Stack Developer & MCA Student"
      email := some "adityamane4650@gmail.com"
      mobile := some "+91 9673594650"
      location := some "India" }
  education :=
    [ { degree := some "Master of Computer Applications (MCA)"
        status := some "Currently in Final Year (2nd Year)"
        institution := some "University Name" },
      { degree := some "Bachelor of Computer Applications (BCA)"
        status := some "Completed"
        institution := some "University Name" } ]
  skills :=
    [ ("Frontend", ["React", "Next.js", "TypeScript", "JavaScript", "HTML", "CSS", "Tailwind CSS"]),
      ("Backend", ["Python", "FastAPI", "Node.js", "Nest.js", "Express"]),
      ("Database", ["MongoDB", "PostgreSQL", "MySQL"]),
      ("AI/ML", ["OpenAI", "OpenRouter API Integration"]),
      ("Tools", ["Git", "Docker", "VS Code"]),
      ("Other", ["REST APIs", "Responsive Design", "Full Stack Development"]) ]
  projects :=
    [ { name := some "AI-Powered Portfolio"
        description := some "Interactive portfolio website with AI chat functionality using React, TypeScript, Python FastAPI, MongoDB, and OpenRouter API"
        technologies := ["React", "TypeScript", "Python", "FastAPI", "MongoDB", "OpenRouter"] },
      { name := some "Full Stack Web Applications"
        description := some "Built various web applications using modern tech stack"
        technologies := ["React", "Node.js", "Express", "MongoDB"] } ]
  about := "Aditya is a passionate Full Stack Developer currently pursuing his Master's in Computer Applications. With a strong foundation in both frontend and backend technologies, he specializes in building modern, responsive web applications. He has hands-on experience with AI integration, database management, and creating seamless user experiences."

/-- MongoDB `find_one()` with no filter: the first document of the
collection, or `None` when the collection is empty.  Storage-assigned `_id`
identifiers are elided from the resume-store model. -/
def find_one (store : List ResumeDocument) : Option ResumeDocument :=
  store.head?

/-- MongoDB `count_documents({})`. -/
def count_documents (store : List ResumeDocument) : Nat :=
  store.length

/-- MongoDB `insert_one`: appends the document to the collection. -/
def insert_one (store : List ResumeDocument) (d : ResumeDocument) :
    List ResumeDocument :=
  store ++ [d]

/-- MongoDB `replace_one({}, d, upsert=True)`: the empty filter matches any
document, so the first document (if any) is replaced by `d`; with no
document the upsert inserts `d`.  Returns the new collection together with
`modified_count` (an upsert-insert counts as 0 modified). -/
def replace_one_upsert (store : List ResumeDocument) (d : ResumeDocument) :
    List ResumeDocument × Nat :=
  match store with
  | [] => ([d], 0)
  | _ :: rest => (d :: rest, 1)

/-- `initialize_resume` of `src/main.py`: insert the seed resume when the
collection is empty, otherwise leave it unchanged. -/
def initialize_resume (store : List ResumeDocument) : List ResumeDocument :=
  if count_documents store = 0 then insert_one store initial_resume_data
  else store

/-- The body of the `GET /api/resume` handler: the stored document, or the
`"No resume data found"` message object when the collection is empty. -/
inductive GetResumeResult where
  | found (d : ResumeDocument)
  | noData (message : String)
deriving DecidableEq

/-- `get_resume` of `src/main.py` (the `_id` stringification is elided with
the identifiers, see `find_one`). -/
def get_resume (store : List ResumeDocument) : GetResumeResult :=
  match find_one store with
  | some r => .found r
  | none => .noData "No resume data found"

/-- The JSON body returned by the `PUT /api/resume` handler. -/
structure UpdateResumeResponse where
  message : String
  modified : Nat
deriving DecidableEq

/-- `update_resume` of `src/main.py`: `replace_one({}, resume_data,
upsert=True)`, then a confirmation carrying `result.modified_count`. -/
def update_resume (store : List ResumeDocument) (resume_data : ResumeDocument) :
    List ResumeDocument × UpdateResumeResponse :=
  let result := replace_one_upsert store resume_data
  (result.1, { message := "Resume updated successfully", modified := result.2 })

/-- JSON values, as `response.json()` returns them: the shape of the upstream
chat-completion body. -/
inductive Json where
  | null
  | bool (b : Bool)
  | num (n : Int)
  | str (s : String)
  | arr (elems : List Json)
  | obj (fields : List (String × Json))

/-- Python `j["key"]` on a parsed JSON value: a dict lookup when `j` is an
object (dict keys are unique, so the first binding is the binding),
and a raised exception — `none` — otherwise. -/
def Json.getField : Json → String → Option Json
  | .obj fields, key => fields.lookup key
  | _, _ => none

/-- Python `j[i]` on a parsed JSON value: a list index when `j` is an array,
and a raised exception — `none` — otherwise. -/
def Json.getIndex : Json → Nat → Option Json
  | .arr elems, i => elems[i]?
  | _, _ => none

/-- The structural access `response.json()["choices"][0]["message"]["content"]`
of the success path of the chat handler, as a fallible chain. -/
def extractContent (j : Json) : Option Json :=
  (((j.getField "choices").bind (fun c => c.getIndex 0)).bind
      (fun c0 => c0.getField "message")).bind
    (fun m => m.getField "content")

/-- The message of the exception Python raises at the first failing access of
`response.json()["choices"][0]["message"]["content"]` (`str(KeyError(k))` is
`"'k'"`, `str(IndexError(...))` is `"list index out of range"`; a non-dict or
non-list step raises an analogous `TypeError`, collapsed here onto the message
of the access that failed). -/
def accessError (j : Json) : String :=
  match j.getField "choices" with
  | none => "'choices'"
  | some c =>
    match c.getIndex 0 with
    | none => "list index out of range"
    | some c0 =>
      match c0.getField "message" with
      | none => "'message'"
      | some m =>
        match m.getField "content" with
        | none => "'content'"
        | some _ => ""

/-- One document of the `chats` collection: the fields inserted by the chat
handler, plus the storage-assigned `_id` (modelled as a number). -/
structure ChatDoc where
  oid : Nat
  user_message : String
  ai_response : Json
  timestamp : String

/-- The errors the chat handler can surface, each a raised
`HTTPException(status_code, detail)`, split by raise site: the credential
check (the spec's ConfigurationError), the non-success upstream-status check
(the spec's UpstreamError), and the handler's final `except Exception` catch-all
re-raising `str(e)`. -/
inductive ChatError where
  | configurationError (statusCode : Nat) (detail : String)
  | upstreamError (statusCode : Nat) (detail : String)
  | internalError (statusCode : Nat) (detail : String)
deriving DecidableEq

/-- The `ChatResponse` pydantic model: the body of a successful
`POST /api/chat`. -/
structure ChatResponse where
  response : String
  timestamp : String
deriving DecidableEq

/-- What the single outbound `httpx` call produced: a raised network error, or
a response with its status code, raw text body, and the result of parsing the
body as JSON (`response.json()` raises — `Except.error` with the decode
error's message — when the text is not valid JSON). -/
inductive UpstreamResult where
  | netError (message : String)
  | response (statusCode : Nat) (text : String) (body : Except String Json)

/-- Everything observable about one run of the chat handler: the returned
body or raised error, whether the outbound call was issued, and the chats
collection afterwards. -/
structure ChatOutcome where
  result : Except ChatError ChatResponse
  networkCalled : Bool
  chats : List ChatDoc

/-- The placeholder credential value rejected by the chat handler. -/
def apiKeyPlaceholder : String := "your_openrouter_api_key_here"

/-- The detail of the credential-configuration error raised by the chat
handler. -/
def apiKeyMissingDetail : String :=
  "OpenRouter API key not configured. Please add your API key to backend/.env file. Get a free key at https://openrouter.ai/"

/-- The `POST /api/chat` handler (`chat` of `src/main.py`) as a total
function of its environment: `pyStr` is Python's `str()` on the parsed
upstream payload (used to format the non-success error detail), `api_key` is
`os.getenv('OPENROUTER_API_KEY')`, `upstream` the outcome of the outbound
call, `insertOk` whether `chats_collection.insert_one` succeeds, `newOid`
the storage-assigned identifier of an inserted document, `ts1`/`ts2` the two
possible draws of `datetime.utcnow().isoformat()` (the second one happens
only when the insert raised), and `chats` the chats collection before the
request.  Python's `not api_key` is true exactly for `None` and `""`.  A
`content` value that is present but not a string passes extraction and is
inserted, then fails the `ChatResponse` pydantic validation, which the
catch-all turns into a 500. -/
def chat (pyStr : Json → String) (api_key : Option String)
    (upstream : UpstreamResult) (insertOk : Bool) (newOid : Nat)
    (ts1 ts2 : String) (chats : List ChatDoc) (user_message : String) :
    ChatOutcome :=
  let key := api_key.getD ""
  if key = "" ∨ key = apiKeyPlaceholder then
    { result := .error (.configurationError 500 apiKeyMissingDetail)
      networkCalled := false
      chats := chats }
  else
    match upstream with
    | .netError message =>
      { result := .error (.internalError 500 message)
        networkCalled := true
        chats := chats }
    | .response statusCode text body =>
      if statusCode ≠ 200 then
        if text = "" then
          { result := .error (.upstreamError 500 ("AI service error: " ++ "AI service error"))
            networkCalled := true
            chats := chats }
        else
          match body with
          | .error parseMsg =>
            { result := .error (.internalError 500 parseMsg)
              networkCalled := true
              chats := chats }
          | .ok payload =>
            { result := .error (.upstreamError 500 ("AI service error: " ++ pyStr payload))
              networkCalled := true
              chats := chats }
      else
        match body with
        | .error parseMsg =>
          { result := .error (.internalError 500 parseMsg)
            networkCalled := true
            chats := chats }
        | .ok payload =>
          match extractContent payload with
          | none =>
            { result := .error (.internalError 500 (accessError payload))
              networkCalled := true
              chats := chats }
          | some content =>
            let timestamp := if insertOk then ts1 else ts2
            let chats2 :=
              if insertOk then
                chats ++ [{ oid := newOid, user_message := user_message,
                            ai_response := content, timestamp := ts1 }]
              else chats
            match content with
            | .str s =>
              { result := .ok { response := s, timestamp := timestamp }
                networkCalled := true
                chats := chats2 }
            | _ =>
              { result := .error (.internalError 500 "response validation error")
                networkCalled := true
                chats := chats2 }

/-- `true` exactly when a handler result is a raise from the guarded
non-success-status site (the spec's UpstreamError). -/
def resultIsUpstreamError : Except ChatError ChatResponse → Bool
  | .error (.upstreamError _ _) => true
  | _ => false

/-- One record of the `GET /api/chat/history` response: the handler rewrites
`chat["_id"] = str(chat["_id"])` before returning. -/
structure ChatHistoryRecord where
  oidStr : String
  user_message : String
  ai_response : Json
  timestamp : String

/-- The `chat["_id"] = str(chat["_id"])` rewrite of the history handler. -/
def stringifyChat (c : ChatDoc) : ChatHistoryRecord :=
  { oidStr := toString c.oid
    user_message := c.user_message
    ai_response := c.ai_response
    timestamp := c.timestamp }

/-- The order requested by `.sort("timestamp", -1)`: newest (largest
timestamp) first; ISO-8601 UTC timestamps compare chronologically as
strings. -/
def tsDesc (a b : ChatDoc) : Prop := b.timestamp ≤ a.timestamp

instance : DecidableRel tsDesc := fun a b =>
  inferInstanceAs (Decidable (b.timestamp ≤ a.timestamp))

instance : IsTotal ChatDoc tsDesc :=
  ⟨fun a b => le_total b.timestamp a.timestamp⟩

instance : IsTrans ChatDoc tsDesc :=
  ⟨fun _ _ _ hab hbc => le_trans hbc hab⟩

/-- MongoDB `.sort("timestamp", -1)` on the chats collection. -/
def sortByTimestampDesc (l : List ChatDoc) : List ChatDoc :=
  List.insertionSort tsDesc l

/-- pymongo `.limit(n)`: a limit of 0 is documented as "no limit" — it is
the default state of a cursor — so `limit(0)` returns the whole result. -/
def mongoLimit (n : Nat) (l : List α) : List α :=
  if n = 0 then l else l.take n

/-- The `GET /api/chat/history` handler (`get_chat_history` of
`src/main.py`): `find().sort("timestamp", -1).limit(limit)`, then the `_id`
stringification of each record.  The handler wraps this list as
`{"chats": ...}`. -/
def get_chat_history (limit : Nat) (store : List ChatDoc) :
    List ChatHistoryRecord :=
  (mongoLimit limit (sortByTimestampDesc store)).map stringifyChat

/-- The declared default of the `limit` query parameter. -/
def defaultHistoryLimit : Nat := 10

/-- Occurrences of `p` as a contiguous substring of `s`: the number of start
positions at which `p` matches. -/
def countOcc (p s : List Char) : Nat :=
  (List.range (s.length + 1)).countP (fun i => p.isPrefixOf (s.drop i))

/-- Modelled from the spec (§4.1): the role-framing instruction,
"an instruction framing the assistant's role using the candidate's name". -/
def specRoleLine (d : ResumeDocument) : String :=
  "\nYou are an AI assistant for " ++ d.personal_info.name.getD "the candidate" ++
    "'s portfolio website. Answer questions about their background, skills, and experience professionally and concisely.\n"

/-- Modelled from the spec (§4.1): "personal fields (name, title, email,
mobile, location — location defaults to a placeholder string
\"Not specified\" if absent)". -/
def specPersonalFields (d : ResumeDocument) : String :=
  "\nName: " ++ fstrOpt d.personal_info.name ++
    "\nTitle: " ++ fstrOpt d.personal_info.title ++
    "\nEmail: " ++ fstrOpt d.personal_info.email ++
    "\nMobile: " ++ fstrOpt d.personal_info.mobile ++
    "\nLocation: " ++ d.personal_info.location.getD "Not specified" ++ "\n"

/-- Modelled from the spec (§4.1): "an \"Education\" section listing each
entry as \"<degree> - <status>\"". -/
def specEducationSection (d : ResumeDocument) : String :=
  "\nEducation:\n" ++
    String.join (d.education.map
      (fun e => "- " ++ fstrOpt e.degree ++ " - " ++ fstrOpt e.status ++ "\n"))

/-- Modelled from the spec (§4.1): "a \"Skills\" section listing each
category as \"<category>: <comma-joined skill list>\"". -/
def specSkillsSection (d : ResumeDocument) : String :=
  "\nSkills:\n" ++
    String.join (d.skills.map
      (fun c => "- " ++ c.1 ++ ": " ++ String.intercalate ", " c.2 ++ "\n"))

/-- Modelled from the spec (§4.1): "a \"Projects\" section listing each as
\"<name>: <description>\"". -/
def specProjectsSection (d : ResumeDocument) : String :=
  "\nProjects:\n" ++
    String.join (d.projects.map
      (fun p => "- " ++ fstrOpt p.name ++ ": " ++ fstrOpt p.description ++ "\n"))

/-- Modelled from the spec (§4.1): "an \"About\" section with the free-text
bio". -/
def specAboutSection (d : ResumeDocument) : String :=
  "\nAbout:\n" ++ d.about ++ "\n"

/-- Modelled from the spec (§4.1): "a closing instruction to answer
naturally and to admit when information is unavailable". -/
def specClosingLine : String :=
  "\nAnswer questions naturally and professionally. If asked about something not mentioned here, politely indicate that information is not available."

/-- Modelled from the spec (§4.1): the Context Builder contract, rendering
the sections "in fixed order", and "a fixed sentence stating no resume data
is available" when no document exists.  Compared against the source-derived
`get_resume_context` in the refinement theorem for the Context Builder
claim. -/
def specContextBuilder : Option ResumeDocument → String
  | none => "No resume data available."
  | some d =>
    specRoleLine d ++ specPersonalFields d ++ specEducationSection d ++
      specSkillsSection d ++ specProjectsSection d ++ specAboutSection d ++
      specClosingLine

/-- A one-category resume used to refute the exactly-once substring claim:
its single skill category is the one-letter string `"a"`, which also occurs
inside the fixed template text. -/
def oneLetterCategoryDoc : ResumeDocument where
  personal_info :=
    { name := some "X", title := some "T", email := some "E",
      mobile := some "M", location := some "L" }
  education := []
  skills := [("a", [])]
  projects := []
  about := ""

/-- A small resume with one skill category and one named project, used to
instantiate the substring theorem for the Context Builder. -/
def sampleResumeDoc : ResumeDocument where
  personal_info :=
    { name := some "X", title := some "T", email := some "E",
      mobile := some "M", location := none }
  education := []
  skills := [("Skills-Cat", ["s1", "s2"])]
  projects :=
    [{ name := some "Proj-1", description := some "a demo", technologies := [] }]
  about := "bio"

/-- A chat record with the older of two sample timestamps. -/
def sampleChatOld : ChatDoc :=
  { oid := 1, user_message := "u1", ai_response := .str "r1",
    timestamp := "2024-01-01T00:00:00" }

/-- A chat record with the newer of two sample timestamps. -/
def sampleChatNew : ChatDoc :=
  { oid := 2, user_message := "u2", ai_response := .str "r2",
    timestamp := "2024-01-02T00:00:00" }

/-!
## Theorems
-/

/-- C3: for every user message, if the configured API credential is absent or
equal to the known placeholder value, the chat handler fails with the
configuration error (an HTTP 500), the outbound network call is never
attempted, and the chat store is untouched — for every possible upstream
behaviour. -/
theorem chat_missing_or_placeholder_key_config_error
    (pyStr : Json → String) (api_key : Option String)
    (upstream : UpstreamResult) (insertOk : Bool) (newOid : Nat)
    (ts1 ts2 : String) (chats : List ChatDoc) (user_message : String)
    (h : api_key = none ∨ api_key = some apiKeyPlaceholder) :
    chat pyStr api_key upstream insertOk newOid ts1 ts2 chats user_message =
      { result := .error (.configurationError 500 apiKeyMissingDetail)
        networkCalled := false
        chats := chats } := by
  rcases h with h | h <;> subst h <;> rfl

/-- Witness for the configuration-error theorem at a concrete input: the
credential is unset and the (never consulted) upstream would have
succeeded. -/
theorem chat_missing_key_config_error_witness :
    chat (fun _ => "") none (.response 200 "" (.ok .null)) true 0 "t1" "t2" [] "hi" =
      { result := .error (.configurationError 500 apiKeyMissingDetail)
        networkCalled := false
        chats := [] } :=
  chat_missing_or_placeholder_key_config_error _ _ _ _ _ _ _ _ _ (Or.inl rfl)

/-- C4: for every user message whose external AI call succeeds (success
status, parseable body, string content at the expected path), a failing
insert into the chat store is swallowed: the handler still returns the AI
response text together with the freshly re-generated timestamp `ts2`, and
the store is unchanged. -/
theorem chat_storage_failure_swallowed
    (pyStr : Json → String) (key : String) (hk1 : key ≠ "")
    (hk2 : key ≠ apiKeyPlaceholder) (text : String) (payload : Json)
    (s : String) (hx : extractContent payload = some (.str s))
    (newOid : Nat) (ts1 ts2 : String) (chats : List ChatDoc)
    (user_message : String) :
    chat pyStr (some key) (.response 200 text (.ok payload)) false newOid
        ts1 ts2 chats user_message =
      { result := .ok { response := s, timestamp := ts2 }
        networkCalled := true
        chats := chats } := by
  simp [chat, hk1, hk2, hx]

/-- Witness for the swallowed-storage-failure theorem at a concrete
well-formed upstream payload. -/
theorem chat_storage_failure_swallowed_witness :
    chat (fun _ => "") (some "sk-test")
        (.response 200 "raw"
          (.ok (.obj [("choices",
            .arr [.obj [("message", .obj [("content", .str "hello")])]])])))
        false 0 "t1" "t2" [] "hi" =
      { result := .ok { response := "hello", timestamp := "t2" }
        networkCalled := true
        chats := [] } :=
  chat_storage_failure_swallowed (fun _ => "") "sk-test" (by decide) (by decide)
    "raw"
    (.obj [("choices", .arr [.obj [("message", .obj [("content", .str "hello")])]])])
    "hello" rfl 0 "t1" "t2" [] "hi"

/-- C5 (evidence): on a success status whose JSON body lacks the expected
`choices` structure, the handler does not fail through the typed
upstream-error site: the raw structural failure (`str(KeyError('choices'))`)
propagates to the catch-all and is re-raised as a generic 500. -/
theorem chat_malformed_success_raw_structural_error :
    chat (fun _ => "") (some "sk-test") (.response 200 "{}" (.ok (.obj [])))
        true 0 "t1" "t2" [] "hi" =
      { result := .error (.internalError 500 "'choices'")
        networkCalled := true
        chats := [] } := by
  rfl

/-- C7: starting from a resume store with at most one document, both
store-modifying operations of the system — startup initialization and the
resume replace endpoint — leave at most one document, and neither leaves the
store empty once it could have held a document (nothing is ever deleted). -/
theorem resume_store_at_most_one
    (store : List ResumeDocument) (d : ResumeDocument)
    (h : store.length ≤ 1) :
    (initialize_resume store).length ≤ 1 ∧
      ((update_resume store d).1).length ≤ 1 ∧
      initialize_resume store ≠ [] ∧ (update_resume store d).1 ≠ [] := by
  cases store with
  | nil =>
    exact ⟨by simp [initialize_resume, insert_one, count_documents],
      by simp [update_resume, replace_one_upsert],
      by simp [initialize_resume, insert_one, count_documents],
      by simp [update_resume, replace_one_upsert]⟩
  | cons a rest =>
    have hr : rest = [] := by
      cases rest with
      | nil => rfl
      | cons b t => simp at h
    subst hr
    exact ⟨by simp [initialize_resume, count_documents],
      by simp [update_resume, replace_one_upsert],
      by simp [initialize_resume, count_documents],
      by simp [update_resume, replace_one_upsert]⟩

/-- Witness for the at-most-one-document invariant, starting from the empty
store. -/
theorem resume_store_at_most_one_witness :
    (([] : List ResumeDocument).length ≤ 1) ∧
      ((initialize_resume []).length ≤ 1 ∧
        ((update_resume [] initial_resume_data).1).length ≤ 1 ∧
        initialize_resume [] ≠ [] ∧
        (update_resume [] initial_resume_data).1 ≠ []) :=
  ⟨by decide, resume_store_at_most_one [] initial_resume_data (by decide)⟩

/-- C8: a PUT of any resume payload followed by a GET returns exactly the
just-written document, whether the store previously held a document
(wholesale replace) or was empty (upsert insert); repeating the same PUT
leaves the stored state unchanged. -/
theorem put_then_get_returns_written_resume
    (store : List ResumeDocument) (d : ResumeDocument) :
    get_resume (update_resume store d).1 = .found d ∧
      (update_resume (update_resume store d).1 d).1 =
        (update_resume store d).1 := by
  cases store <;> exact ⟨rfl, rfl⟩

/-- C2 (counterexample): a non-success upstream response whose body is
non-empty but not valid JSON does not fail through the typed upstream-error
site — `response.json()` raises and the catch-all re-raises the decode
error — so the claim "fails with an UpstreamError carrying the payload or a
generic message" is false at this input (the store is still untouched). -/
theorem chat_non_success_nonjson_not_upstream_error :
    resultIsUpstreamError
        (chat (fun _ => "") (some "k")
          (.response 500 "oops" (.error "Expecting value: line 1 column 1 (char 0)"))
          true 0 "t1" "t2" [] "hi").result = false := by
  rfl

/-- C2 (amended): for every non-success upstream status, the handler raises
and never writes a chat record; the raise is the typed upstream error
carrying the parsed payload when the body parses as JSON, the generic
message when the body is empty, and the catch-all re-raise of the JSON
decode error when the body is non-empty but unparseable. -/
theorem chat_non_success_upstream_fails_no_write
    (pyStr : Json → String) (key : String) (hk1 : key ≠ "")
    (hk2 : key ≠ apiKeyPlaceholder) (statusCode : Nat) (text : String)
    (body : Except String Json) (hs : statusCode ≠ 200) (insertOk : Bool)
    (newOid : Nat) (ts1 ts2 : String) (chats : List ChatDoc)
    (user_message : String) :
    (chat pyStr (some key) (.response statusCode text body) insertOk newOid
        ts1 ts2 chats user_message).chats = chats ∧
      (chat pyStr (some key) (.response statusCode text body) insertOk newOid
          ts1 ts2 chats user_message).result =
        .error
          (if text = "" then
            .upstreamError 500 ("AI service error: " ++ "AI service error")
          else
            match body with
            | .ok payload =>
              .upstreamError 500 ("AI service error: " ++ pyStr payload)
            | .error parseMsg => .internalError 500 parseMsg) := by
  rcases body with parseMsg | payload <;>
    by_cases ht : text = "" <;>
    simp [chat, hk1, hk2, hs, ht]

/-- Witness for the amended non-success theorem: a 500 with an empty body
yields the generic upstream-error message and writes nothing. -/
theorem chat_non_success_upstream_fails_no_write_witness :
    (chat (fun _ => "x") (some "k") (.response 500 "" (.ok .null)) true 0
        "t1" "t2" [] "m").chats = ([] : List ChatDoc) ∧
      (chat (fun _ => "x") (some "k") (.response 500 "" (.ok .null)) true 0
          "t1" "t2" [] "m").result =
        .error
          (if ("" : String) = "" then
            .upstreamError 500 ("AI service error: " ++ "AI service error")
          else
            match (.ok .null : Except String Json) with
            | .ok payload =>
              .upstreamError 500 ("AI service error: " ++ (fun _ => "x") payload)
            | .error parseMsg => .internalError 500 parseMsg) :=
  chat_non_success_upstream_fails_no_write (fun _ => "x") "k" (by decide)
    (by decide) 500 "" (.ok .null) (by decide) true 0 "t1" "t2" [] "m"

/-- C9 (counterexample): with `limit=0` and one stored record, the history
endpoint returns that record, so the bound "at most N records" fails at
N = 0 (pymongo's `limit(0)` means "no limit"). -/
theorem chat_history_limit_zero_not_bounded :
    ¬ ((get_chat_history 0 [sampleChatOld]).length ≤ 0) := by
  decide

/-- C9 (amended): for every requested limit N ≥ 1 (the declared default is
10), the history endpoint returns at most N records, sorted by timestamp
descending, and every returned record is the identifier-stringified copy of
a stored record. -/
theorem chat_history_bounded_sorted_stringified
    (limit : Nat) (hl : 1 ≤ limit) (store : List ChatDoc) :
    (get_chat_history limit store).length ≤ limit ∧
      List.Sorted (fun a b : ChatHistoryRecord => b.timestamp ≤ a.timestamp)
        (get_chat_history limit store) ∧
      ∀ r ∈ get_chat_history limit store, ∃ c ∈ store, r = stringifyChat c := by
  have hne : limit ≠ 0 := Nat.one_le_iff_ne_zero.mp hl
  refine ⟨?_, ?_, ?_⟩
  · rw [get_chat_history, mongoLimit, if_neg hne, List.length_map,
      List.length_take]
    exact min_le_left _ _
  · have hs : List.Sorted tsDesc (List.insertionSort tsDesc store) :=
      List.sorted_insertionSort tsDesc store
    have hs2 : List.Sorted tsDesc
        (mongoLimit limit (sortByTimestampDesc store)) := by
      rw [mongoLimit, if_neg hne, sortByTimestampDesc]
      exact List.Pairwise.sublist (List.take_sublist _ _) hs
    exact List.Pairwise.map stringifyChat (fun a b h => h) hs2
  · intro r hr
    rw [get_chat_history] at hr
    obtain ⟨c, hc, rfl⟩ := List.mem_map.mp hr
    refine ⟨c, ?_, rfl⟩
    rw [mongoLimit, if_neg hne, sortByTimestampDesc] at hc
    exact ((List.perm_insertionSort tsDesc store).mem_iff).mp
      (List.Sublist.mem hc (List.take_sublist _ _))

/-- Witness for the amended history theorem at `limit=3` over a two-record
store. -/
theorem chat_history_bounded_sorted_stringified_witness :
    (1 ≤ 3) ∧
      ((get_chat_history 3 [sampleChatOld, sampleChatNew]).length ≤ 3 ∧
        List.Sorted (fun a b : ChatHistoryRecord => b.timestamp ≤ a.timestamp)
          (get_chat_history 3 [sampleChatOld, sampleChatNew]) ∧
        ∀ r ∈ get_chat_history 3 [sampleChatOld, sampleChatNew],
          ∃ c ∈ [sampleChatOld, sampleChatNew], r = stringifyChat c) :=
  ⟨by decide,
    chat_history_bounded_sorted_stringified 3 (by decide)
      [sampleChatOld, sampleChatNew]⟩

/-- C10: with `limit=0` the history endpoint returns every stored record
(the underlying cursor's `limit(0)` is "no limit"), not zero records. -/
theorem chat_history_limit_zero_returns_all (store : List ChatDoc) :
    (get_chat_history 0 store).length = store.length ∧
      ∀ c ∈ store, stringifyChat c ∈ get_chat_history 0 store := by
  constructor
  · rw [get_chat_history, mongoLimit, if_pos rfl, List.length_map,
      sortByTimestampDesc]
    exact (List.perm_insertionSort tsDesc store).length_eq
  · intro c hc
    rw [get_chat_history, mongoLimit, if_pos rfl, sortByTimestampDesc]
    exact List.mem_map.mpr
      ⟨c, ((List.perm_insertionSort tsDesc store).mem_iff).mpr hc, rfl⟩

/-- Witness for the limit-zero theorem over a one-record store. -/
theorem chat_history_limit_zero_returns_all_witness :
    (get_chat_history 0 [sampleChatOld]).length = [sampleChatOld].length ∧
      stringifyChat sampleChatOld ∈ get_chat_history 0 [sampleChatOld] :=
  ⟨(chat_history_limit_zero_returns_all [sampleChatOld]).1,
    (chat_history_limit_zero_returns_all [sampleChatOld]).2 sampleChatOld
      (List.mem_cons_self _ _)⟩

/-- An infix of `m` is an infix of `l ++ m`. -/
theorem data_infix_append_right (x m l : String)
    (h : x.data <:+: m.data) : x.data <:+: (l ++ m).data := by
  rw [String.data_append]
  obtain ⟨s, t, hst⟩ := h
  exact ⟨l.data ++ s, t, by rw [← hst]; simp [List.append_assoc]⟩

/-- An infix of `m` is an infix of `m ++ r`. -/
theorem data_infix_append_left (x m r : String)
    (h : x.data <:+: m.data) : x.data <:+: (m ++ r).data := by
  rw [String.data_append]
  obtain ⟨s, t, hst⟩ := h
  exact ⟨s, t ++ r.data, by rw [← hst]; simp [List.append_assoc]⟩

/-- Every skill category name occurs verbatim in the rendered skills
block. -/
theorem category_infix_renderSkillLines (c : String)
    (skills : List (String × List String)) (h : c ∈ skills.map Prod.fst) :
    c.data <:+: (renderSkillLines skills).data := by
  induction skills with
  | nil => simp at h
  | cons a rest ih =>
    rw [renderSkillLines]
    simp only [List.map_cons, List.mem_cons] at h
    rcases h with h | h
    · subst h
      refine ⟨"- ".data,
        (": " ++ String.intercalate ", " a.2 ++ "\n").data ++
          (renderSkillLines rest).data, ?_⟩
      simp [String.data_append, List.append_assoc]
    · exact data_infix_append_right _ _ _ (ih h)

/-- Every project name occurs verbatim in the rendered projects block. -/
theorem name_infix_renderProjectLines (n : String)
    (projects : List ProjectEntry) (p : ProjectEntry) (hp : p ∈ projects)
    (hn : p.name = some n) :
    n.data <:+: (renderProjectLines projects).data := by
  induction projects with
  | nil => simp at hp
  | cons a rest ih =>
    rw [renderProjectLines]
    rcases List.mem_cons.mp hp with h | h
    · subst h
      refine ⟨"- ".data,
        (": " ++ fstrOpt p.description ++ "\n").data ++
          (renderProjectLines rest).data, ?_⟩
      simp [String.data_append, List.append_assoc, fstrOpt, hn]
    · exact data_infix_append_right _ _ _ (ih h)

set_option maxRecDepth 10000 in
/-- C1 (counterexample): for the resume whose single skill category is the
one-letter string `"a"`, that category occurs as a substring of the rendered
context more than once (the letter also occurs throughout the fixed template
text), so "exactly once" fails. -/
theorem category_occurs_more_than_once :
    countOcc ("a".data)
        ((get_resume_context (some oneLetterCategoryDoc)).data) ≠ 1 := by
  decide

/-- C1 (amended): every skill category name and every project name of a
resume occurs as a verbatim substring of the rendered context (at least
once; occurrences need not be unique, since a name may also occur elsewhere
in the text). -/
theorem context_contains_categories_and_project_names
    (doc : ResumeDocument) :
    (∀ c ∈ doc.skills.map Prod.fst,
        c.data <:+: (get_resume_context (some doc)).data) ∧
      (∀ p ∈ doc.projects, ∀ n, p.name = some n →
        n.data <:+: (get_resume_context (some doc)).data) := by
  constructor
  · intro c hc
    show c.data <:+:
      ("\nYou are an AI assistant for " ++ doc.personal_info.name.getD "the candidate" ++
        "'s portfolio website. Answer questions about their background, skills, and experience professionally and concisely.\n\nName: " ++
        fstrOpt doc.personal_info.name ++
        "\nTitle: " ++ fstrOpt doc.personal_info.title ++
        "\nEmail: " ++ fstrOpt doc.personal_info.email ++
        "\nMobile: " ++ fstrOpt doc.personal_info.mobile ++
        "\nLocation: " ++ doc.personal_info.location.getD "Not specified" ++
        "\n\nEducation:\n" ++
        renderEducationLines doc.education ++
        "\nSkills:\n" ++
        renderSkillLines doc.skills ++
        "\nProjects:\n" ++
        renderProjectLines doc.projects ++
        "\nAbout:\n" ++ doc.about ++ "\n" ++
        "\nAnswer questions naturally and professionally. If asked about something not mentioned here, politely indicate that information is not available.").data
    refine data_infix_append_left _ _ _ (data_infix_append_left _ _ _
      (data_infix_append_left _ _ _ (data_infix_append_left _ _ _
        (data_infix_append_left _ _ _ (data_infix_append_left _ _ _
          (data_infix_append_right _ _ _
            (category_infix_renderSkillLines c doc.skills hc)))))))
  · intro p hp n hn
    show n.data <:+:
      ("\nYou are an AI assistant for " ++ doc.personal_info.name.getD "the candidate" ++
        "'s portfolio website. Answer questions about their background, skills, and experience professionally and concisely.\n\nName: " ++
        fstrOpt doc.personal_info.name ++
        "\nTitle: " ++ fstrOpt doc.personal_info.title ++
        "\nEmail: " ++ fstrOpt doc.personal_info.email ++
        "\nMobile: " ++ fstrOpt doc.personal_info.mobile ++
        "\nLocation: " ++ doc.personal_info.location.getD "Not specified" ++
        "\n\nEducation:\n" ++
        renderEducationLines doc.education ++
        "\nSkills:\n" ++
        renderSkillLines doc.skills ++
        "\nProjects:\n" ++
        renderProjectLines doc.projects ++
        "\nAbout:\n" ++ doc.about ++ "\n" ++
        "\nAnswer questions naturally and professionally. If asked about something not mentioned here, politely indicate that information is not available.").data
    refine data_infix_append_left _ _ _ (data_infix_append_left _ _ _
      (data_infix_append_left _ _ _ (data_infix_append_left _ _ _
        (data_infix_append_right _ _ _
          (name_infix_renderProjectLines n doc.projects p hp hn)))))

/-- Witness for the amended substring theorem: the sample resume's category
and project name are substrings of its rendered context. -/
theorem context_contains_categories_and_project_names_witness :
    ("Skills-Cat".data <:+:
        (get_resume_context (some sampleResumeDoc)).data) ∧
      ("Proj-1".data <:+: (get_resume_context (some sampleResumeDoc)).data) :=
  ⟨(context_contains_categories_and_project_names sampleResumeDoc).1
      "Skills-Cat" (by decide),
    (context_contains_categories_and_project_names sampleResumeDoc).2
      { name := some "Proj-1", description := some "a demo", technologies := [] }
      (by decide) "Proj-1" rfl⟩

/-- Folding string append from any accumulator prepends the accumulator. -/
theorem foldl_append_eq_append_foldl (l : List String) (a : String) :
    l.foldl (fun r s => r ++ s) a = a ++ l.foldl (fun r s => r ++ s) "" := by
  induction l generalizing a with
  | nil => simp [String.append_empty]
  | cons s rest ih =>
    simp only [List.foldl_cons]
    rw [ih (a ++ s), ih ("" ++ s), String.empty_append, String.append_assoc]

/-- `String.join` on a cons. -/
theorem join_cons (s : String) (l : List String) :
    String.join (s :: l) = s ++ String.join l := by
  show (s :: l).foldl (fun r s => r ++ s) "" = s ++ l.foldl (fun r s => r ++ s) ""
  rw [List.foldl_cons, String.empty_append, foldl_append_eq_append_foldl]

/-- The education loop renders the join of the per-entry lines. -/
theorem renderEducationLines_eq_join (l : List EducationEntry) :
    renderEducationLines l =
      String.join (l.map
        (fun e => "- " ++ fstrOpt e.degree ++ " - " ++ fstrOpt e.status ++ "\n")) := by
  induction l with
  | nil => rfl
  | cons e rest ih => rw [renderEducationLines, ih, List.map_cons, join_cons]

/-- The skills loop renders the join of the per-category lines. -/
theorem renderSkillLines_eq_join (l : List (String × List String)) :
    renderSkillLines l =
      String.join (l.map
        (fun c => "- " ++ c.1 ++ ": " ++ String.intercalate ", " c.2 ++ "\n")) := by
  induction l with
  | nil => rfl
  | cons c rest ih => rw [renderSkillLines, ih, List.map_cons, join_cons]

/-- The projects loop renders the join of the per-project lines. -/
theorem renderProjectLines_eq_join (l : List ProjectEntry) :
    renderProjectLines l =
      String.join (l.map
        (fun p => "- " ++ fstrOpt p.name ++ ": " ++ fstrOpt p.description ++ "\n")) := by
  induction l with
  | nil => rfl
  | cons p rest ih => rw [renderProjectLines, ih, List.map_cons, join_cons]

/-- Merging the two adjacent literals at the role-line / personal-fields
boundary. -/
theorem merge_name_literal (s : String) :
    ("'s portfolio website. Answer questions about their background, skills, and experience professionally and concisely.\n" : String) ++
        ("\nName: " ++ s) =
      "'s portfolio website. Answer questions about their background, skills, and experience professionally and concisely.\n\nName: " ++ s := by
  rw [← String.append_assoc]
  exact congrArg (· ++ s) rfl

/-- Merging the two adjacent literals at the personal-fields / education
boundary. -/
theorem merge_education_literal (s : String) :
    ("\n" : String) ++ ("\nEducation:\n" ++ s) = "\n\nEducation:\n" ++ s := by
  rw [← String.append_assoc]
  exact congrArg (· ++ s) rfl

/-- C6: the source's Context Builder coincides with the spec's section-wise
description: the fixed no-resume sentence when no document exists, and
otherwise the role-framing instruction, the personal fields (location
defaulting to "Not specified"), the Education, Skills, Projects and About
sections, and the closing instruction, in that fixed order. -/
theorem context_builder_matches_spec (r : Option ResumeDocument) :
    get_resume_context r = specContextBuilder r := by
  cases r with
  | none => rfl
  | some d =>
    show ("\nYou are an AI assistant for " ++ d.personal_info.name.getD "the candidate" ++
        "'s portfolio website. Answer questions about their background, skills, and experience professionally and concisely.\n\nName: " ++
        fstrOpt d.personal_info.name ++
        "\nTitle: " ++ fstrOpt d.personal_info.title ++
        "\nEmail: " ++ fstrOpt d.personal_info.email ++
        "\nMobile: " ++ fstrOpt d.personal_info.mobile ++
        "\nLocation: " ++ d.personal_info.location.getD "Not specified" ++
        "\n\nEducation:\n" ++
        renderEducationLines d.education ++
        "\nSkills:\n" ++
        renderSkillLines d.skills ++
        "\nProjects:\n" ++
        renderProjectLines d.projects ++
        "\nAbout:\n" ++ d.about ++ "\n" ++
        "\nAnswer questions naturally and professionally. If asked about something not mentioned here, politely indicate that information is not available.") =
      specRoleLine d ++ specPersonalFields d ++ specEducationSection d ++
        specSkillsSection d ++ specProjectsSection d ++ specAboutSection d ++
        specClosingLine
    rw [specRoleLine, specPersonalFields, specEducationSection,
      specSkillsSection, specProjectsSection, specAboutSection,
      specClosingLine, ← renderEducationLines_eq_join,
      ← renderSkillLines_eq_join, ← renderProjectLines_eq_join]
    simp only [String.append_assoc]
    rw [merge_name_literal, merge_education_literal]

end EmergenceBackend
